import Mathlib

/-!
# Verification of the interior-mutability abstraction layer

Shallow embedding of `src/lib.rs` of the `interior-mut` crate: the
`InteriorMut` trait (fallible shared / exclusive borrow), its bindings for
`RefCell`, `Mutex`, `RwLock`, the forwarding implementation for `Rc`, and the
`StrongReference` / `WeakReference` capabilities (`downgrade` / `upgrade`).

Mutation of a container's runtime borrow state is made explicit: a borrow
operation takes the container state and returns either an error or the
borrowed view together with the successor state.  The standard-library
containers the crate binds to (`RefCell`, `Mutex`, `RwLock`, `Rc`/`Weak`) are
not part of the crate's sources; their runtime behaviour is modelled from the
specification's description of them, which matches their documented
semantics.
-/

namespace InteriorMutLib

/-- The uniform shape of the `InteriorMut` trait of `src/lib.rs`: a container
state of type `C` wrapping a value of type `T`, with fallible shared borrow
(`borrow_int`, error type `E`) and fallible exclusive borrow
(`borrow_int_mut`, error type `EM`).  A successful borrow yields the view of
the wrapped value together with the container state carrying the outstanding
borrow. -/
structure InteriorMutImpl (C T E EM : Type) where
  borrow_int : C → Except E (T × C)
  borrow_int_mut : C → Except EM (T × C)

/-- Projection of a borrow result onto its externally observable outcome:
the success view, or the specific failure value (the successor container
state is dropped). -/
def outcome {C T E : Type} (r : Except E (T × C)) : Except E T :=
  r.map Prod.fst

/-! ## `RefCell`: the single-threaded runtime-checked cell

Modelled from the spec: `core::cell::RefCell` is not part of this crate.
The runtime borrow state is the integer borrow flag of the cell: `0` when
unused, `n > 0` when `n` shared borrows are outstanding, negative when an
exclusive borrow is outstanding. -/

structure RefCell (T : Type) where
  flag : Int
  value : T
deriving Repr, DecidableEq

/-- The conflict error of a failed shared borrow (`BorrowError`). -/
structure BorrowError where
deriving Repr, DecidableEq

/-- The conflict error of a failed exclusive borrow (`BorrowMutError`). -/
structure BorrowMutError where
deriving Repr, DecidableEq

/-- Modelled from the spec: `RefCell::try_borrow` succeeds exactly when no
exclusive borrow is outstanding (flag not negative), recording one more
shared borrow; otherwise it fails with `BorrowError` without blocking. -/
def RefCell.try_borrow {T : Type} (c : RefCell T) :
    Except BorrowError (T × RefCell T) :=
  if 0 ≤ c.flag then .ok (c.value, { c with flag := c.flag + 1 })
  else .error ⟨⟩

/-- Modelled from the spec: `RefCell::try_borrow_mut` succeeds exactly when
no borrow of any kind is outstanding (flag `0`), marking the cell as
exclusively borrowed; otherwise it fails with `BorrowMutError` without
blocking. -/
def RefCell.try_borrow_mut {T : Type} (c : RefCell T) :
    Except BorrowMutError (T × RefCell T) :=
  if c.flag = 0 then .ok (c.value, { c with flag := -1 })
  else .error ⟨⟩

/-- The `impl InteriorMut for RefCell` binding of `src/lib.rs`:
`borrow_int` is `RefCell::try_borrow` and `borrow_int_mut` is
`RefCell::try_borrow_mut`. -/
def RefCell.interiorMut (T : Type) :
    InteriorMutImpl (RefCell T) T BorrowError BorrowMutError where
  borrow_int := RefCell.try_borrow
  borrow_int_mut := RefCell.try_borrow_mut

/-- `flag < 0` says an exclusive borrow is currently outstanding. -/
def RefCell.exclusiveOutstanding {T : Type} (c : RefCell T) : Prop :=
  c.flag < 0

/-- `0 ≤ flag` says the only outstanding borrows, if any, are shared. -/
def RefCell.onlySharedOutstanding {T : Type} (c : RefCell T) : Prop :=
  0 ≤ c.flag

end InteriorMutLib

namespace InteriorMutLib

/-- C2: for the `RefCell` binding, `borrow_int` fails with the conflict
error whenever an exclusive borrow is outstanding, and succeeds with the
view of the wrapped value whenever only shared borrows (or none) are
outstanding.  The operation is a total function on the cell state, so it
never blocks. -/
theorem refcell_borrow_int_spec {T : Type} (c : RefCell T) :
    (c.exclusiveOutstanding →
      ((RefCell.interiorMut T).borrow_int c = .error ⟨⟩)) ∧
    (c.onlySharedOutstanding →
      ((RefCell.interiorMut T).borrow_int c =
        .ok (c.value, { c with flag := c.flag + 1 }))) := by
  constructor
  · intro h
    simp only [RefCell.exclusiveOutstanding] at h
    simp [RefCell.interiorMut, RefCell.try_borrow, not_le.mpr h]
  · intro h
    simp only [RefCell.onlySharedOutstanding] at h
    simp [RefCell.interiorMut, RefCell.try_borrow, h]

/-- Witness for C2: at flag `-1` (exclusive borrow outstanding) the shared
borrow fails; at flag `2` (two shared borrows outstanding) it succeeds. -/
theorem refcell_borrow_int_spec_witness :
    ((RefCell.interiorMut Nat).borrow_int ⟨-1, 7⟩ = .error ⟨⟩) ∧
    ((RefCell.interiorMut Nat).borrow_int ⟨2, 7⟩ = .ok (7, ⟨3, 7⟩)) :=
  ⟨(refcell_borrow_int_spec ⟨-1, 7⟩).1 (show (-1 : Int) < 0 by decide),
   (refcell_borrow_int_spec ⟨2, 7⟩).2 (show (0 : Int) ≤ 2 by decide)⟩

/-- C3: for the `RefCell` binding, `borrow_int_mut` fails with the conflict
error whenever any borrow, shared or exclusive, is outstanding (flag not
`0`), and succeeds with the view of the wrapped value when no borrow is
outstanding.  The operation is a total function on the cell state, so it
never blocks. -/
theorem refcell_borrow_int_mut_spec {T : Type} (c : RefCell T) :
    (c.flag ≠ 0 →
      ((RefCell.interiorMut T).borrow_int_mut c = .error ⟨⟩)) ∧
    (c.flag = 0 →
      ((RefCell.interiorMut T).borrow_int_mut c =
        .ok (c.value, { c with flag := -1 }))) := by
  constructor
  · intro h
    simp [RefCell.interiorMut, RefCell.try_borrow_mut, h]
  · intro h
    simp [RefCell.interiorMut, RefCell.try_borrow_mut, h]

/-- Witness for C3: at flag `1` (a shared borrow outstanding) the exclusive
borrow fails; at flag `0` (no borrow outstanding) it succeeds. -/
theorem refcell_borrow_int_mut_spec_witness :
    ((RefCell.interiorMut Nat).borrow_int_mut ⟨1, 7⟩ = .error ⟨⟩) ∧
    ((RefCell.interiorMut Nat).borrow_int_mut ⟨0, 7⟩ = .ok (7, ⟨-1, 7⟩)) :=
  ⟨(refcell_borrow_int_mut_spec ⟨1, 7⟩).1 (by decide),
   (refcell_borrow_int_mut_spec ⟨0, 7⟩).2 (by decide)⟩

/-! ## `Mutex`: the mutual-exclusion lock

Modelled from the spec: `std::sync::Mutex` is not part of this crate.  A
successful acquisition yields a `MutexGuard`; if a previous holder panicked
while holding the lock, acquisition yields a `PoisonError` that still carries
the guard, so the protected value remains reachable through the error. -/

/-- The guard returned by a successful lock acquisition; it dereferences to
the protected value. -/
structure MutexGuard (T : Type) where
  value : T
deriving Repr, DecidableEq

/-- Read access through a guard (`Deref`). -/
def MutexGuard.deref {T : Type} (g : MutexGuard T) : T :=
  g.value

/-- Modelled from the spec: write access through a guard (`DerefMut`): the
guard grants read-write access to the protected value. -/
def MutexGuard.set {T : Type} (g : MutexGuard T) (v : T) : MutexGuard T :=
  { g with value := v }

/-- The poison error of the lock-based bindings: it carries the
point-in-time guard handle, so the protected data remains recoverable. -/
structure PoisonError (G : Type) where
  guard : G
deriving Repr, DecidableEq

structure Mutex (T : Type) where
  poisoned : Bool
  value : T
deriving Repr, DecidableEq

/-- Modelled from the spec: `Mutex::lock` blocks until the lock is acquired;
the outcome of the acquisition is the guard, or, when the lock is poisoned,
a `PoisonError` carrying that same guard. -/
def Mutex.lock {T : Type} (m : Mutex T) :
    Except (PoisonError (MutexGuard T)) (MutexGuard T) :=
  if m.poisoned then .error ⟨⟨m.value⟩⟩ else .ok ⟨m.value⟩

/-- The `impl InteriorMut for Mutex` binding of `src/lib.rs`: the shared
borrow is `self.lock()`. -/
def Mutex.borrow_int {T : Type} (m : Mutex T) :
    Except (PoisonError (MutexGuard T)) (MutexGuard T) :=
  m.lock

/-- The `impl InteriorMut for Mutex` binding of `src/lib.rs`: the exclusive
borrow is also `self.lock()`. -/
def Mutex.borrow_int_mut {T : Type} (m : Mutex T) :
    Except (PoisonError (MutexGuard T)) (MutexGuard T) :=
  m.lock

/-- The associated type `Ref` of the `Mutex` binding (`MutexGuard`). -/
def Mutex.RefTy (T : Type) : Type :=
  MutexGuard T

/-- The associated type `RefMut` of the `Mutex` binding (`MutexGuard`). -/
def Mutex.RefMutTy (T : Type) : Type :=
  MutexGuard T

/-- The associated type `Error` of the `Mutex` binding. -/
def Mutex.ErrorTy (T : Type) : Type :=
  PoisonError (MutexGuard T)

/-- The associated type `ErrorMut` of the `Mutex` binding. -/
def Mutex.ErrorMutTy (T : Type) : Type :=
  PoisonError (MutexGuard T)

/-- C6: for the `Mutex` binding, the shared-borrow operation and the
exclusive-borrow operation are the very same lock acquisition: `borrow_int`
equals `borrow_int_mut` as functions, both equal `Mutex.lock`, and the guard
type returned on success and the poison error type returned on failure
coincide between the two operations. -/
theorem mutex_shared_is_exclusive (T : Type) :
    @Mutex.borrow_int T = @Mutex.borrow_int_mut T ∧
    @Mutex.borrow_int T = @Mutex.lock T ∧
    Mutex.RefTy T = Mutex.RefMutTy T ∧
    Mutex.ErrorTy T = Mutex.ErrorMutTy T :=
  ⟨rfl, rfl, rfl, rfl⟩

/-- C9: for the `Mutex` binding, the shared-view type and the
exclusive-view type are the same concrete guard type, and a guard obtained
through the shared operation `borrow_int` grants read-write access to the
wrapped value: writing through it with `set` changes the value it
dereferences to. -/
theorem mutex_shared_guard_readwrite {T : Type} :
    Mutex.RefTy T = Mutex.RefMutTy T ∧
    ∀ m : Mutex T, m.poisoned = false → ∀ v : T,
      ∃ g : MutexGuard T, Mutex.borrow_int m = .ok g ∧
        g.deref = m.value ∧ (g.set v).deref = v := by
  refine ⟨rfl, ?_⟩
  intro m h v
  exact ⟨⟨m.value⟩, by simp [Mutex.borrow_int, Mutex.lock, h], rfl, rfl⟩

/-- Witness for C9: on an unpoisoned mutex holding `3`, the shared borrow
returns a guard reading `3`, and writing `9` through that guard makes it
read `9`. -/
theorem mutex_shared_guard_readwrite_witness :
    ∃ g : MutexGuard Nat, Mutex.borrow_int ⟨false, 3⟩ = .ok g ∧
      g.deref = 3 ∧ (g.set 9).deref = 9 :=
  mutex_shared_guard_readwrite.2 ⟨false, 3⟩ rfl 9

/-! ## `RwLock`: the read/write lock

Modelled from the spec: `std::sync::RwLock` is not part of this crate.  The
acquisition discipline is a state machine over the count of outstanding
shared (read) holders and the presence of an exclusive (write) holder:
acquiring a shared slot waits until no writer holds the lock, acquiring
exclusive access waits until no holder of any kind remains.  Poisoning is
orthogonal: a poisoned lock yields a `PoisonError` carrying the guard. -/

/-- The guard of a successful shared (read) acquisition. -/
structure RwLockReadGuard (T : Type) where
  value : T
deriving Repr, DecidableEq

/-- The guard of a successful exclusive (write) acquisition. -/
structure RwLockWriteGuard (T : Type) where
  value : T
deriving Repr, DecidableEq

structure RwLock (T : Type) where
  readers : Nat
  writer : Bool
  poisoned : Bool
  value : T
deriving Repr, DecidableEq

/-- Modelled from the spec: the acquisition outcome of `RwLock::read` once
a shared slot is granted: the read guard, or a poison error carrying it. -/
def RwLock.read {T : Type} (s : RwLock T) :
    Except (PoisonError (RwLockReadGuard T)) (RwLockReadGuard T) :=
  if s.poisoned then .error ⟨⟨s.value⟩⟩ else .ok ⟨s.value⟩

/-- Modelled from the spec: the acquisition outcome of `RwLock::write` once
exclusive access is granted: the write guard, or a poison error carrying it. -/
def RwLock.write {T : Type} (s : RwLock T) :
    Except (PoisonError (RwLockWriteGuard T)) (RwLockWriteGuard T) :=
  if s.poisoned then .error ⟨⟨s.value⟩⟩ else .ok ⟨s.value⟩

/-- The `impl InteriorMut for RwLock` binding of `src/lib.rs`: the shared
borrow is `self.read()`. -/
def RwLock.borrow_int {T : Type} (s : RwLock T) :
    Except (PoisonError (RwLockReadGuard T)) (RwLockReadGuard T) :=
  s.read

/-- The `impl InteriorMut for RwLock` binding of `src/lib.rs`: the exclusive
borrow is `self.write()`. -/
def RwLock.borrow_int_mut {T : Type} (s : RwLock T) :
    Except (PoisonError (RwLockWriteGuard T)) (RwLockWriteGuard T) :=
  s.write

/-- The acquisition and release events on a read/write lock.  `acquireRead`
is the acquisition performed by `borrow_int` (`self.read()`), `acquireWrite`
the one performed by `borrow_int_mut` (`self.write()`); the release events
model dropping the corresponding guard. -/
inductive RwOp
  | acquireRead
  | releaseRead
  | acquireWrite
  | releaseWrite
deriving Repr, DecidableEq

/-- Modelled from the spec: one admissible transition of the lock state.
A shared slot is granted only while no writer holds the lock; exclusive
access is granted only while no holder of any kind remains.  `none` means
the event cannot fire in this state (the caller would keep waiting). -/
def RwLock.step {T : Type} (s : RwLock T) : RwOp → Option (RwLock T)
  | .acquireRead =>
      if s.writer then none else some { s with readers := s.readers + 1 }
  | .releaseRead =>
      if 0 < s.readers then some { s with readers := s.readers - 1 } else none
  | .acquireWrite =>
      if s.writer = false ∧ s.readers = 0 then some { s with writer := true }
      else none
  | .releaseWrite =>
      if s.writer then some { s with writer := false } else none

/-- Running a sequence of acquisition/release events from a lock state. -/
def RwLock.run {T : Type} (s : RwLock T) : List RwOp → Option (RwLock T)
  | [] => some s
  | op :: ops => (s.step op).bind fun t => t.run ops

/-- A single step preserves mutual exclusion between a writer and readers. -/
theorem RwLock.step_mutex {T : Type} {s t : RwLock T} {op : RwOp}
    (hs : s.writer = true → s.readers = 0) (h : s.step op = some t) :
    t.writer = true → t.readers = 0 := by
  cases op <;> simp only [RwLock.step] at h
  · by_cases hw : s.writer
    · simp [hw] at h
    · simp [hw] at h
      subst h
      intro ht
      simp_all
  · by_cases hr : 0 < s.readers
    · simp [hr] at h
      subst h
      intro ht
      simp [hs ht]
    · simp [hr] at h
  · by_cases hc : s.writer = false ∧ s.readers = 0
    · simp [hc] at h
      subst h
      intro _
      simp
    · simp [hc] at h
  · by_cases hw : s.writer
    · simp [hw] at h
      subst h
      intro ht
      simp at ht
    · simp [hw] at h

/-- Mutual exclusion along every run. -/
theorem RwLock.run_mutex {T : Type} (ops : List RwOp) (s t : RwLock T)
    (hs : s.writer = true → s.readers = 0) (h : s.run ops = some t) :
    t.writer = true → t.readers = 0 := by
  induction ops generalizing s with
  | nil =>
      simp only [RwLock.run] at h
      cases h
      exact hs
  | cons op ops ih =>
      simp only [RwLock.run, Option.bind] at h
      cases hstep : s.step op with
      | none => rw [hstep] at h; cases h
      | some u =>
          rw [hstep] at h
          exact ih u (RwLock.step_mutex hs hstep) h

/-- C8: for the `RwLock` binding, `borrow_int` performs the shared
acquisition and `borrow_int_mut` the exclusive one; multiple shared borrows
may be concurrently outstanding (a run from the unlocked state reaches two
outstanding readers); starting from the unlocked state, no reachable state
has an exclusive holder together with an outstanding shared holder; an
exclusive acquisition cannot fire while any shared borrow is outstanding,
and a shared acquisition cannot fire while an exclusive borrow is
outstanding. -/
theorem rwlock_exclusion {T : Type} (v : T) :
    (@RwLock.borrow_int T = RwLock.read ∧
      @RwLock.borrow_int_mut T = RwLock.write) ∧
    (RwLock.run ⟨0, false, false, v⟩ [RwOp.acquireRead, RwOp.acquireRead] =
      some ⟨2, false, false, v⟩) ∧
    (∀ ops t, RwLock.run ⟨0, false, false, v⟩ ops = some t →
      ¬(t.writer = true ∧ 0 < t.readers)) ∧
    (∀ s : RwLock T, 0 < s.readers → s.step RwOp.acquireWrite = none) ∧
    (∀ s : RwLock T, s.writer = true → s.step RwOp.acquireRead = none) := by
  refine ⟨⟨rfl, rfl⟩, by simp [RwLock.run, RwLock.step, Option.bind], ?_, ?_, ?_⟩
  · intro ops t h hc
    have := RwLock.run_mutex ops ⟨0, false, false, v⟩ t (fun _ => rfl) h hc.1
    omega
  · intro s hr
    have : ¬(s.writer = false ∧ s.readers = 0) := by omega
    simp [RwLock.step, this]
  · intro s hw
    simp [RwLock.step, hw]

/-- Witness for C8: from the unlocked lock over `0`, two shared
acquisitions are both granted; with one reader outstanding the exclusive
acquisition cannot fire; with a writer outstanding the shared acquisition
cannot fire. -/
theorem rwlock_exclusion_witness :
    (RwLock.run (T := Nat) ⟨0, false, false, 0⟩
      [RwOp.acquireRead, RwOp.acquireRead] = some ⟨2, false, false, 0⟩) ∧
    (RwLock.step (T := Nat) ⟨1, false, false, 0⟩ RwOp.acquireWrite = none) ∧
    (RwLock.step (T := Nat) ⟨0, true, false, 0⟩ RwOp.acquireRead = none) ∧
    ¬((⟨2, false, false, 0⟩ : RwLock Nat).writer = true ∧
      0 < (⟨2, false, false, 0⟩ : RwLock Nat).readers) :=
  ⟨(rwlock_exclusion 0).2.1,
   (rwlock_exclusion 0).2.2.2.1 ⟨1, false, false, 0⟩ (by decide),
   (rwlock_exclusion 0).2.2.2.2 ⟨0, true, false, 0⟩ rfl,
   (rwlock_exclusion 0).2.2.1 [RwOp.acquireRead, RwOp.acquireRead]
     ⟨2, false, false, 0⟩ (rwlock_exclusion 0).2.1⟩

/-! ## `Rc` and `Weak`: the reference-counted wrapper

Modelled from the spec: `std::rc::Rc` and `std::rc::Weak` are not part of
this crate.  The state is the shared allocation: the strong count, the weak
count, and the inner container.  A strong reference exists while
`1 ≤ strong`; the inner container is dropped exactly when the strong count
reaches `0`, after which no weak reference can be upgraded again. -/

structure Rc (I : Type) where
  strong : Nat
  weak : Nat
  inner : I
deriving Repr, DecidableEq

/-- The `impl InteriorMut for Rc` of `src/lib.rs`: the shared borrow
dereferences to the inner container and forwards to its `borrow_int`. -/
def Rc.borrow_int {I T E EM : Type} (impl : InteriorMutImpl I T E EM)
    (rc : Rc I) : Except E (T × Rc I) :=
  match impl.borrow_int rc.inner with
  | .ok (v, i) => .ok (v, { rc with inner := i })
  | .error e => .error e

/-- The `impl InteriorMut for Rc` of `src/lib.rs`: the exclusive borrow
dereferences to the inner container and forwards to its `borrow_int_mut`. -/
def Rc.borrow_int_mut {I T E EM : Type} (impl : InteriorMutImpl I T E EM)
    (rc : Rc I) : Except EM (T × Rc I) :=
  match impl.borrow_int_mut rc.inner with
  | .ok (v, i) => .ok (v, { rc with inner := i })
  | .error e => .error e

/-- The `impl StrongReference for Rc` of `src/lib.rs` forwards to
`Rc::downgrade`.  Modelled from the spec: `Rc::downgrade` records one more
weak reference; it has no failure mode and touches nothing else. -/
def Rc.downgrade {I : Type} (rc : Rc I) : Rc I :=
  { rc with weak := rc.weak + 1 }

/-- The `impl WeakReference for Weak` of `src/lib.rs` forwards to
`Weak::upgrade`.  Modelled from the spec: `Weak::upgrade` on the shared
allocation returns a new strong reference (raising the strong count) exactly
when at least one strong reference still exists; otherwise it returns
nothing. -/
def Weak.upgrade {I : Type} (s : Rc I) : Option (Rc I) :=
  if 1 ≤ s.strong then some { s with strong := s.strong + 1 } else none

/-- The reference-counting events on the shared allocation.  Cloning a
strong reference and downgrading require a live strong reference; dropping
is counted saturating at zero; upgrading adds a strong reference only when
one still exists. -/
inductive RcOp
  | cloneStrong
  | dropStrong
  | downgrade
  | dropWeak
  | upgrade
deriving Repr, DecidableEq

/-- Modelled from the spec: one reference-counting event on the shared
allocation. -/
def Rc.step {I : Type} (s : Rc I) : RcOp → Rc I
  | .cloneStrong => if 1 ≤ s.strong then { s with strong := s.strong + 1 } else s
  | .dropStrong => { s with strong := s.strong - 1 }
  | .downgrade => if 1 ≤ s.strong then { s with weak := s.weak + 1 } else s
  | .dropWeak => { s with weak := s.weak - 1 }
  | .upgrade => if 1 ≤ s.strong then { s with strong := s.strong + 1 } else s

/-- Running a sequence of reference-counting events. -/
def Rc.run {I : Type} (s : Rc I) (ops : List RcOp) : Rc I :=
  ops.foldl Rc.step s

/-- A strong count of zero is absorbing: no later event revives it. -/
theorem Rc.step_strong_zero {I : Type} (s : Rc I) (op : RcOp)
    (h : s.strong = 0) : (s.step op).strong = 0 := by
  cases op <;> simp [Rc.step, h]

/-- A strong count of zero stays zero along every run. -/
theorem Rc.run_strong_zero {I : Type} (s : Rc I) (ops : List RcOp)
    (h : s.strong = 0) : (s.run ops).strong = 0 := by
  induction ops generalizing s with
  | nil => exact h
  | cons op ops ih => exact ih (s.step op) (Rc.step_strong_zero s op h)

/-- The outcome of a shared borrow through the wrapper is the outcome of
the inner shared borrow. -/
theorem Rc.outcome_borrow_int {I T E EM : Type}
    (impl : InteriorMutImpl I T E EM) (rc : Rc I) :
    outcome (Rc.borrow_int impl rc) = outcome (impl.borrow_int rc.inner) := by
  cases h : impl.borrow_int rc.inner with
  | ok p => simp [Rc.borrow_int, outcome, h, Except.map]
  | error e => simp [Rc.borrow_int, outcome, h, Except.map]

/-- The outcome of an exclusive borrow through the wrapper is the outcome
of the inner exclusive borrow. -/
theorem Rc.outcome_borrow_int_mut {I T E EM : Type}
    (impl : InteriorMutImpl I T E EM) (rc : Rc I) :
    outcome (Rc.borrow_int_mut impl rc) =
      outcome (impl.borrow_int_mut rc.inner) := by
  cases h : impl.borrow_int_mut rc.inner with
  | ok p => simp [Rc.borrow_int_mut, outcome, h, Except.map]
  | error e => simp [Rc.borrow_int_mut, outcome, h, Except.map]

end InteriorMutLib

namespace InteriorMutLib

/-- C1: borrowing through the reference-counted wrapper produces exactly
the same outcome — the same success view or the same specific failure value,
in the inner error type — as borrowing on the wrapped container directly,
for every implementation of the capability interface, both for the shared
and for the exclusive operation. -/
theorem rc_forwarding {I T E EM : Type} (impl : InteriorMutImpl I T E EM)
    (rc : Rc I) :
    outcome (Rc.borrow_int impl rc) = outcome (impl.borrow_int rc.inner) ∧
    outcome (Rc.borrow_int_mut impl rc) =
      outcome (impl.borrow_int_mut rc.inner) :=
  ⟨Rc.outcome_borrow_int impl rc, Rc.outcome_borrow_int_mut impl rc⟩

/-- C4: `downgrade` always succeeds — it is a total operation that records
a new weak reference on each call — and upgrading the resulting weak
reference while a strong reference is still alive yields a present strong
reference to the same allocation: its inner container is the original one,
so borrowing through it gives the same outcome as borrowing through the
original. -/
theorem downgrade_upgrade_roundtrip {I : Type} (rc : Rc I)
    (h : 1 ≤ rc.strong) :
    (rc.downgrade).weak = rc.weak + 1 ∧
    ∃ rc2, Weak.upgrade rc.downgrade = some rc2 ∧ rc2.inner = rc.inner ∧
      ∀ (T E EM : Type) (impl : InteriorMutImpl I T E EM),
        outcome (Rc.borrow_int impl rc2) =
          outcome (Rc.borrow_int impl rc) := by
  refine ⟨rfl, { rc with strong := rc.strong + 1, weak := rc.weak + 1 },
    ?_, rfl, ?_⟩
  · simp only [Weak.upgrade, Rc.downgrade]
    rw [if_pos h]
  · intro T E EM impl
    rw [Rc.outcome_borrow_int impl _, Rc.outcome_borrow_int impl rc]

/-- Witness for C4: on an allocation with one strong reference holding a
`RefCell` over `5`, downgrade-then-upgrade yields a strong reference whose
shared borrow reads `5`, just like the original. -/
theorem downgrade_upgrade_roundtrip_witness :
    ∃ rc2, Weak.upgrade (Rc.downgrade ⟨1, 0, (⟨0, 5⟩ : RefCell Nat)⟩) =
        some rc2 ∧
      rc2.inner = (⟨0, 5⟩ : RefCell Nat) ∧
      ∀ (T E EM : Type) (impl : InteriorMutImpl (RefCell Nat) T E EM),
        outcome (Rc.borrow_int impl rc2) =
          outcome (Rc.borrow_int impl ⟨1, 0, ⟨0, 5⟩⟩) :=
  (downgrade_upgrade_roundtrip ⟨1, 0, ⟨0, 5⟩⟩ (by decide)).2

/-- C5: `upgrade` returns a present strong reference exactly when at least
one strong reference exists at the moment of the call; and once the strong
count has reached zero, no sequence of later reference-counting events can
revive it, so every subsequent `upgrade` returns the absent value, forever. -/
theorem upgrade_iff_strong {I : Type} (s : Rc I) :
    ((Weak.upgrade s).isSome ↔ 1 ≤ s.strong) ∧
    (s.strong = 0 → ∀ ops : List RcOp, Weak.upgrade (s.run ops) = none) := by
  constructor
  · simp only [Weak.upgrade]
    by_cases h : 1 ≤ s.strong <;> simp [h]
  · intro h ops
    have hz := Rc.run_strong_zero s ops h
    simp [Weak.upgrade, hz]

/-- Witness for C5: on a dead allocation (strong count `0`) holding `3`,
upgrading after any of the sample event sequences — including attempted
upgrades and weak-count traffic — yields nothing. -/
theorem upgrade_iff_strong_witness :
    ((Weak.upgrade (⟨1, 0, 3⟩ : Rc Nat)).isSome ↔ 1 ≤ (1 : Nat)) ∧
    Weak.upgrade (Rc.run (⟨0, 2, 3⟩ : Rc Nat)
      [RcOp.upgrade, RcOp.downgrade, RcOp.cloneStrong, RcOp.dropWeak,
        RcOp.upgrade]) = none :=
  ⟨(upgrade_iff_strong (⟨1, 0, 3⟩ : Rc Nat)).1,
   (upgrade_iff_strong (⟨0, 2, 3⟩ : Rc Nat)).2 rfl
     [RcOp.upgrade, RcOp.downgrade, RcOp.cloneStrong, RcOp.dropWeak,
       RcOp.upgrade]⟩

/-- C10: `downgrade` is a pure observation of the strong reference as far
as the container is concerned: it leaves the strong count, the inner
container (its value and its borrow state) unchanged, and every subsequent
shared or exclusive borrow through the strong reference has exactly the
outcome it had before the call. -/
theorem downgrade_frame {I T E EM : Type} (impl : InteriorMutImpl I T E EM)
    (rc : Rc I) :
    (rc.downgrade).strong = rc.strong ∧
    (rc.downgrade).inner = rc.inner ∧
    outcome (Rc.borrow_int impl rc.downgrade) =
      outcome (Rc.borrow_int impl rc) ∧
    outcome (Rc.borrow_int_mut impl rc.downgrade) =
      outcome (Rc.borrow_int_mut impl rc) := by
  refine ⟨rfl, rfl, ?_, ?_⟩
  · rw [Rc.outcome_borrow_int impl rc.downgrade, Rc.outcome_borrow_int impl rc]
    rfl
  · rw [Rc.outcome_borrow_int_mut impl rc.downgrade,
      Rc.outcome_borrow_int_mut impl rc]
    rfl

/-- C7: no binding swallows a failure of the underlying container, and no
binding introduces an error of its own.  Every error of the lock-based
bindings is the poison error carrying the point-in-time guard handle, whose
dereference is the protected value, so the data remains recoverable; the
reference-counted wrapper surfaces the inner container's error unchanged in
the inner error type; and the checked-cell binding is literally the
underlying fallible borrow, so its error is the underlying conflict error. -/
theorem error_propagation {T I TV E EM : Type}
    (impl : InteriorMutImpl I TV E EM) :
    (∀ (m : Mutex T) e, Mutex.borrow_int m = .error e →
      e.guard.deref = m.value ∧ m.poisoned = true) ∧
    (∀ (m : Mutex T) e, Mutex.borrow_int_mut m = .error e →
      e.guard.deref = m.value ∧ m.poisoned = true) ∧
    (∀ (s : RwLock T) e, RwLock.borrow_int s = .error e →
      e.guard.value = s.value ∧ s.poisoned = true) ∧
    (∀ (s : RwLock T) e, RwLock.borrow_int_mut s = .error e →
      e.guard.value = s.value ∧ s.poisoned = true) ∧
    (∀ (rc : Rc I) (e : E), impl.borrow_int rc.inner = .error e →
      Rc.borrow_int impl rc = .error e) ∧
    (∀ (rc : Rc I) (e : EM), impl.borrow_int_mut rc.inner = .error e →
      Rc.borrow_int_mut impl rc = .error e) ∧
    ((RefCell.interiorMut T).borrow_int = RefCell.try_borrow ∧
      (RefCell.interiorMut T).borrow_int_mut = RefCell.try_borrow_mut) := by
  refine ⟨?_, ?_, ?_, ?_, ?_, ?_, rfl, rfl⟩
  · intro m e h
    by_cases hp : m.poisoned
    · simp [Mutex.borrow_int, Mutex.lock, hp] at h
      exact ⟨h ▸ rfl, hp⟩
    · simp [Mutex.borrow_int, Mutex.lock, hp] at h
  · intro m e h
    by_cases hp : m.poisoned
    · simp [Mutex.borrow_int_mut, Mutex.lock, hp] at h
      exact ⟨h ▸ rfl, hp⟩
    · simp [Mutex.borrow_int_mut, Mutex.lock, hp] at h
  · intro s e h
    by_cases hp : s.poisoned
    · simp [RwLock.borrow_int, RwLock.read, hp] at h
      exact ⟨h ▸ rfl, hp⟩
    · simp [RwLock.borrow_int, RwLock.read, hp] at h
  · intro s e h
    by_cases hp : s.poisoned
    · simp [RwLock.borrow_int_mut, RwLock.write, hp] at h
      exact ⟨h ▸ rfl, hp⟩
    · simp [RwLock.borrow_int_mut, RwLock.write, hp] at h
  · intro rc e h
    simp [Rc.borrow_int, h]
  · intro rc e h
    simp [Rc.borrow_int_mut, h]

/-- Witness for C7: a poisoned mutex over `3` fails with the error whose
guard reads `3`; a poisoned read/write lock over `4` fails with the error
whose guard holds `4`; a reference-counted `RefCell` in the exclusively
borrowed state surfaces the inner conflict error unchanged. -/
theorem error_propagation_witness :
    ((⟨⟨3⟩⟩ : PoisonError (MutexGuard Nat)).guard.deref =
        (⟨true, 3⟩ : Mutex Nat).value ∧
      (⟨true, 3⟩ : Mutex Nat).poisoned = true) ∧
    ((⟨⟨4⟩⟩ : PoisonError (RwLockWriteGuard Nat)).guard.value =
        (⟨0, false, true, 4⟩ : RwLock Nat).value ∧
      (⟨0, false, true, 4⟩ : RwLock Nat).poisoned = true) ∧
    Rc.borrow_int (RefCell.interiorMut Nat) ⟨1, 0, ⟨-1, 5⟩⟩ = .error ⟨⟩ :=
  ⟨(error_propagation (T := Nat) (RefCell.interiorMut Nat)).1
      ⟨true, 3⟩ ⟨⟨3⟩⟩ rfl,
   (error_propagation (T := Nat) (RefCell.interiorMut Nat)).2.2.2.1
      ⟨0, false, true, 4⟩ ⟨⟨4⟩⟩ rfl,
   (error_propagation (T := Nat) (RefCell.interiorMut Nat)).2.2.2.2.1
      ⟨1, 0, ⟨-1, 5⟩⟩ ⟨⟩ rfl⟩

end InteriorMutLib
